import Mathlib

/-!
Shallow embedding of the report_bot recipient registry (bot.py), the
role-assignment conversation steps, and the notify HTTP endpoint
(notify_service.py).

The recipients table is modelled as a list of rows. SQL statements become
list operations: a SELECT followed by fetchone is List.find?, an UPDATE is
List.map together with the rowcount of the matching rows, a DELETE is
List.filter together with the rowcount, and an INSERT appends a row.
Exceptions become Except values; each distinct raise site gets its own
error constructor.
-/

namespace ReportBot

/-- A row of the recipients table (the Recipient dataclass in bot.py). -/
structure Recipient where
  nickname : String
  chat_id  : Int
  username : Option String
  role     : String
  deriving DecidableEq, Repr

/-- The recipients table, as the list of its rows. -/
abbrev Table := List Recipient

/-- Errors raised by the bot code: each BotUserError raise site, and the
ValueError of set_role (invalidRole), gets one constructor. -/
inductive BotError where
  | chatAlreadyBound (currentNick : String)
  | nicknameTaken (nickname : String)
  | invalidRole
  | emptyNickname
  | nicknameNotFound (nickname : String)
  | badCallbackData
  | invalidRoleChoice
  | roleLost
  | updateFailed (nickname : String)
  deriving DecidableEq, Repr

/-- SELECT ... FROM recipients WHERE chat_id = cid, followed by fetchone. -/
def selectByChat (t : Table) (cid : Int) : Option Recipient :=
  t.find? fun r => r.chat_id == cid

/-- SELECT ... FROM recipients WHERE nickname = n, followed by fetchone. -/
def selectByNickname (t : Table) (n : String) : Option Recipient :=
  t.find? fun r => r.nickname == n

/-- UPDATE recipients SET username = u WHERE nickname = n. -/
def updateUsername (t : Table) (n : String) (u : Option String) : Table :=
  t.map fun r => if r.nickname = n then { r with username := u } else r

/-- UPDATE recipients SET role = rl WHERE nickname = n, with its rowcount. -/
def updateRole (t : Table) (n rl : String) : Nat × Table :=
  ((t.filter fun r => r.nickname == n).length,
   t.map fun r => if r.nickname = n then { r with role := rl } else r)

/-- save_recipient from bot.py: look up the row for this chat and the row
for this nickname; if both exist and carry this nickname, update the
username only; else if the chat already has a different nickname, raise
chatAlreadyBound carrying it; else if the nickname belongs to a different
chat, raise nicknameTaken; else insert a fresh row with role user. -/
def save_recipient (nickname : String) (chat_id : Int) (username : Option String)
    (t : Table) : Except BotError Table :=
  let row_chat := selectByChat t chat_id
  let row_nick := selectByNickname t nickname
  match row_chat, row_nick with
  | some rc, some rn =>
    if rc.nickname = rn.nickname ∧ rn.nickname = nickname then
      .ok (updateUsername t nickname username)
    else if rc.nickname ≠ nickname then
      .error (.chatAlreadyBound rc.nickname)
    else if rn.chat_id ≠ chat_id then
      .error (.nicknameTaken nickname)
    else
      .ok (t ++ [⟨nickname, chat_id, username, "user"⟩])
  | some rc, none =>
    if rc.nickname ≠ nickname then
      .error (.chatAlreadyBound rc.nickname)
    else
      .ok (t ++ [⟨nickname, chat_id, username, "user"⟩])
  | none, some rn =>
    if rn.chat_id ≠ chat_id then
      .error (.nicknameTaken nickname)
    else
      .ok (t ++ [⟨nickname, chat_id, username, "user"⟩])
  | none, none =>
    .ok (t ++ [⟨nickname, chat_id, username, "user"⟩])

/-- delete_by_nickname from bot.py: DELETE FROM recipients WHERE
nickname = n; returns the number of deleted rows and the new table. -/
def delete_by_nickname (n : String) (t : Table) : Nat × Table :=
  ((t.filter fun r => r.nickname == n).length,
   t.filter fun r => r.nickname != n)

/-- unsubscribe_chat from bot.py: DELETE FROM recipients WHERE
chat_id = cid; returns the number of deleted rows and the new table. -/
def unsubscribe_chat (cid : Int) (t : Table) : Nat × Table :=
  ((t.filter fun r => r.chat_id == cid).length,
   t.filter fun r => r.chat_id != cid)

/-- set_role from bot.py: raise ValueError (invalidRole) unless the role is
user or admin, else UPDATE the role for this nickname and return the
rowcount with the new table. -/
def set_role (nickname rl : String) (t : Table) : Except BotError (Nat × Table) :=
  if ¬ (rl = "user" ∨ rl = "admin") then
    .error .invalidRole
  else
    .ok (updateRole t nickname rl)

/-- get_recipient_by_nickname from bot.py. -/
def get_recipient_by_nickname (n : String) (t : Table) : Option Recipient :=
  selectByNickname t n

/-- get_recipients_by_chat from bot.py. -/
def get_recipients_by_chat (cid : Int) (t : Table) : List Recipient :=
  t.filter fun r => r.chat_id == cid

/-- is_admin_chat from bot.py: some row of this chat has role admin. -/
def is_admin_chat (cid : Int) (t : Table) : Bool :=
  (get_recipients_by_chat cid t).any fun r => r.role == "admin"

/-- The registry mutations reachable from the handlers. -/
inductive RegOp where
  | register (nickname : String) (chat_id : Int) (username : Option String)
  | delByNickname (nickname : String)
  | delByChat (chat_id : Int)
  | setRole (nickname rl : String)

/-- Run one registry operation; a raised error leaves the table unchanged
(the transaction never commits). -/
def applyOp (t : Table) : RegOp → Table
  | .register n c u =>
    match save_recipient n c u t with
    | .ok t2 => t2
    | .error _ => t
  | .delByNickname n => (delete_by_nickname n t).2
  | .delByChat c => (unsubscribe_chat c t).2
  | .setRole n rl =>
    match set_role n rl t with
    | .ok (_, t2) => t2
    | .error _ => t

/-- Run a sequence of registry operations from the empty table. -/
def runOps (ops : List RegOp) : Table :=
  ops.foldl applyOp []

/-- Every nickname appears in at most one row. -/
def NicknamesNodup (t : Table) : Prop :=
  (t.map Recipient.nickname).Nodup

/-- Every chat_id appears in at most one row. -/
def ChatsNodup (t : Table) : Prop :=
  (t.map Recipient.chat_id).Nodup

/-- Every row's role is user or admin. -/
def RolesValid (t : Table) : Prop :=
  ∀ r ∈ t, r.role = "user" ∨ r.role = "admin"

/-- The three table invariants of the spec. -/
def RegistryInv (t : Table) : Prop :=
  NicknamesNodup t ∧ ChatsNodup t ∧ RolesValid t

/-! Conversation engine: the setrole conversation states and handlers,
and the subscribe nickname handler, from bot.py. -/

/-- ConversationHandler state constant from bot.py. -/
def SETROLE_CHOOSE_ROLE : Nat := 2

/-- ConversationHandler state constant from bot.py. -/
def SETROLE_WAIT_NICKNAME : Nat := 3

/-- Python str.strip, as used on incoming message text: drop whitespace
from both ends. -/
def pyStrip (s : String) : String :=
  ⟨((s.data.dropWhile Char.isWhitespace).reverse.dropWhile Char.isWhitespace).reverse⟩

/-- subscribe_receive from bot.py: strip the message text; an empty nickname
raises emptyNickname before the store is touched; otherwise the nickname is
handed to save_recipient. -/
def subscribe_receive (text : String) (chat_id : Int) (username : Option String)
    (t : Table) : Except BotError Table :=
  let nickname := pyStrip text
  if nickname = "" then
    .error .emptyNickname
  else
    save_recipient nickname chat_id username t

/-- Python startswith on text, by characters. -/
def pyStartswith (s pre : String) : Bool :=
  s.data.take pre.data.length == pre.data

/-- Python slicing from character index k to the end. -/
def pyDropChars (s : String) (k : Nat) : String :=
  ⟨s.data.drop k⟩

/-- setrole_choose_role from bot.py, on the callback data: reject data that
does not start with the tag, take the part after the first colon (under the
guard this is the slice from index 5, since the first colon is the one
ending the tag), reject a value outside admin and user, else store the role
and go to SETROLE_WAIT_NICKNAME. -/
def setrole_choose_role (data : Option String) :
    Except BotError (String × Nat) :=
  let d := data.getD ""
  if ¬ pyStartswith d "role:" then
    .error .badCallbackData
  else
    let rl := pyDropChars d 5
    if ¬ (rl = "admin" ∨ rl = "user") then
      .error .invalidRoleChoice
    else
      .ok (rl, SETROLE_WAIT_NICKNAME)

/-- The callback pattern of the setrole conversation registration in
bot.py: re.match against the anchored regex role:(admin|user) whose
dollar anchor also matches just before one trailing newline, so the
accepted data values are exactly the two tokens and the two tokens
followed by a single trailing newline. -/
def setrolePatternMatches (data : String) : Bool :=
  data == "role:admin" || data == "role:user" ||
    data == "role:admin\n" || data == "role:user\n"

/-- One callback-query event while the setrole conversation is in state
SETROLE_CHOOSE_ROLE: the handler is registered under setrolePatternMatches,
so a non-matching callback never invokes it and the conversation state and
stored role are unchanged; a matching one runs setrole_choose_role. A
handler that raises leaves the conversation state where it was. Returns the
next state, the stored target role, and the raised error if any. -/
def setroleChooseRoleStep (data : String) (targetRole : Option String) :
    Nat × Option String × Option BotError :=
  if setrolePatternMatches data then
    match setrole_choose_role (some data) with
    | .ok (rl, next) => (next, some rl, none)
    | .error e => (SETROLE_CHOOSE_ROLE, targetRole, some e)
  else
    (SETROLE_CHOOSE_ROLE, targetRole, none)

/-- Replies of the final setrole step. -/
inductive SetroleReply where
  | noopSame (nickname rl : String)
  | changed (nickname oldRole newRole : String)
  deriving DecidableEq, Repr

/-- Observable outcome of one event handled by the final setrole step: the
reply or raised error; the conversation state afterwards, where none means
the handler returned the END sentinel and the conversation ended, and
some s means the conversation is in state s — the conversation driver
updates the state only from the handler's return value, so a handler that
raises leaves the conversation in SETROLE_WAIT_NICKNAME; the stored target
role afterwards; and the table afterwards. -/
structure SetroleCommitOutcome where
  reply : Except BotError SetroleReply
  convState : Option Nat
  targetRole : Option String
  table : Table
  deriving Repr

/-- setrole_receive_nickname from bot.py, run in conversation state
SETROLE_WAIT_NICKNAME: strip the text and reject an empty nickname
(raising, keeping the stored role); reject a lost or invalid stored role
(raising, clearing it); look the nickname up, absent raises
nicknameNotFound clearing the stored role; same role already is a distinct
no-op reply touching no row, returning END; else set_role runs, the old to
new transition is reported and END is returned. A raise leaves the
conversation state in SETROLE_WAIT_NICKNAME; only the returned END ends
the session. -/
def setrole_receive_nickname (text : String) (targetRole : Option String)
    (t : Table) : SetroleCommitOutcome :=
  let nickname := pyStrip text
  if nickname = "" then
    ⟨.error .emptyNickname, some SETROLE_WAIT_NICKNAME, targetRole, t⟩
  else
    match targetRole with
    | none => ⟨.error .roleLost, some SETROLE_WAIT_NICKNAME, none, t⟩
    | some rl =>
      if ¬ (rl = "admin" ∨ rl = "user") then
        ⟨.error .roleLost, some SETROLE_WAIT_NICKNAME, none, t⟩
      else
        match get_recipient_by_nickname nickname t with
        | none =>
          ⟨.error (.nicknameNotFound nickname), some SETROLE_WAIT_NICKNAME,
            none, t⟩
        | some recipient =>
          let old_role := recipient.role
          if old_role = rl then
            ⟨.ok (.noopSame nickname rl), none, none, t⟩
          else
            match set_role nickname rl t with
            | .error e =>
              ⟨.error e, some SETROLE_WAIT_NICKNAME, targetRole, t⟩
            | .ok (updated, t2) =>
              if updated = 0 then
                ⟨.error (.updateFailed nickname), some SETROLE_WAIT_NICKNAME,
                  none, t2⟩
              else
                ⟨.ok (.changed nickname old_role rl), none, none, t2⟩

/-! Push notifier: the notify endpoint of notify_service.py. -/

/-- The JSON body of a POST request to the notify endpoint. -/
structure NotifyRequest where
  secret : String
  nickname : String
  text : String
  deriving DecidableEq, Repr

/-- HTTP status of the notify endpoint's response; error500 is the
framework's answer when an exception escapes the handler uncaught. -/
inductive NotifyStatus where
  | ok200
  | forbidden403
  | notFound404
  | badGateway502
  | error500
  deriving DecidableEq, Repr

/-- Outcome of the outbound post performed by send_telegram_message: the
response was ok (2xx); the response was received but not ok, which makes
send_telegram_message raise the RuntimeError that notify catches; or the
post call itself raised a transport exception (network failure, timeout),
which is not a RuntimeError and is caught nowhere in notify. -/
inductive DeliveryOutcome where
  | delivered
  | notOk
  | transportException
  deriving DecidableEq, Repr

/-- Observable outcome of one notify request: the response, the registry
lookups performed, and the outbound delivery attempts made. -/
structure NotifyResult where
  response : NotifyStatus
  lookups : List String
  deliveries : List (Int × String)
  deriving DecidableEq, Repr

/-- get_chat_id from notify_service.py: SELECT chat_id WHERE nickname,
fetchone; none models the KeyError. -/
def get_chat_id (t : Table) (nickname : String) : Option Int :=
  (t.find? fun r => r.nickname == nickname).map fun r => r.chat_id

/-- notify from notify_service.py: 403 on a secret mismatch before any
lookup; else look the nickname up, 404 when absent; else one outbound
delivery attempt to that chat. The except clause around the attempt only
catches RuntimeError, so a non-ok response becomes 502 while a transport
exception escapes the handler and the framework answers 500. deliver gives
the outcome of the outbound transport for a given chat and text. -/
def notify (api_secret : String) (deliver : Int → String → DeliveryOutcome)
    (t : Table) (payload : NotifyRequest) : NotifyResult :=
  if payload.secret ≠ api_secret then
    ⟨.forbidden403, [], []⟩
  else
    match get_chat_id t payload.nickname with
    | none => ⟨.notFound404, [payload.nickname], []⟩
    | some cid =>
      match deliver cid payload.text with
      | .delivered => ⟨.ok200, [payload.nickname], [(cid, payload.text)]⟩
      | .notOk => ⟨.badGateway502, [payload.nickname], [(cid, payload.text)]⟩
      | .transportException =>
        ⟨.error500, [payload.nickname], [(cid, payload.text)]⟩

/-! Helper lemmas about the SELECT embeddings. -/

theorem selectByNickname_nickname {t : Table} {n : String} {r : Recipient}
    (h : selectByNickname t n = some r) : r.nickname = n := by
  have := List.find?_some h
  simpa using this

theorem selectByNickname_mem {t : Table} {n : String} {r : Recipient}
    (h : selectByNickname t n = some r) : r ∈ t :=
  List.mem_of_find?_eq_some h

theorem selectByNickname_eq_none {t : Table} {n : String} :
    selectByNickname t n = none ↔ ∀ r ∈ t, r.nickname ≠ n := by
  simp [selectByNickname, List.find?_eq_none]

theorem selectByChat_chat {t : Table} {c : Int} {r : Recipient}
    (h : selectByChat t c = some r) : r.chat_id = c := by
  have := List.find?_some h
  simpa using this

theorem selectByChat_mem {t : Table} {c : Int} {r : Recipient}
    (h : selectByChat t c = some r) : r ∈ t :=
  List.mem_of_find?_eq_some h

theorem selectByChat_eq_none {t : Table} {c : Int} :
    selectByChat t c = none ↔ ∀ r ∈ t, r.chat_id ≠ c := by
  simp [selectByChat, List.find?_eq_none]

/-- A successful save_recipient either took the username-update branch (the
chat's row already carries this nickname) or inserted a fresh row into a
table where neither the chat nor the nickname occurs; the other ok branches
of the match are unreachable. -/
theorem save_ok_cases {n : String} {c : Int} {u : Option String} {t t2 : Table}
    (h : save_recipient n c u t = .ok t2) :
    (∃ rc, selectByChat t c = some rc ∧ rc.nickname = n ∧
      t2 = updateUsername t n u) ∨
    (selectByChat t c = none ∧ selectByNickname t n = none ∧
      t2 = t ++ [⟨n, c, u, "user"⟩]) := by
  unfold save_recipient at h
  rcases hchat : selectByChat t c with _ | rc <;>
    rcases hnick : selectByNickname t n with _ | rn <;>
    rw [hchat, hnick] at h <;> simp only [] at h
  · exact Or.inr ⟨rfl, rfl, by simpa using h.symm⟩
  · have hrn : rn.nickname = n := selectByNickname_nickname hnick
    have hrc : rn.chat_id ≠ c := by
      intro hc
      have := (selectByChat_eq_none.mp hchat) rn (selectByNickname_mem hnick)
      exact this hc
    simp [hrc] at h
  · have hrc : rc.nickname ≠ n := by
      intro hn
      have := (selectByNickname_eq_none.mp hnick) rc (selectByChat_mem hchat)
      exact this hn
    simp [hrc] at h
  · have hrn : rn.nickname = n := selectByNickname_nickname hnick
    by_cases heq : rc.nickname = n
    · simp [hrn, heq] at h
      exact Or.inl ⟨rc, rfl, heq, h.symm⟩
    · simp [hrn, heq] at h

/-! Invariant preservation. -/

theorem registryInv_nil : RegistryInv [] := by
  refine ⟨?_, ?_, ?_⟩ <;> simp [NicknamesNodup, ChatsNodup, RolesValid]

theorem map_field_map {α : Type} {g : Recipient → α} {f : Recipient → Recipient}
    (hf : ∀ r, g (f r) = g r) (t : Table) :
    (t.map f).map g = t.map g := by
  rw [List.map_map]
  exact List.map_congr_left fun a _ => hf a

theorem registryInv_updateUsername {t : Table} (hinv : RegistryInv t)
    (n : String) (u : Option String) : RegistryInv (updateUsername t n u) := by
  obtain ⟨h1, h2, h3⟩ := hinv
  refine ⟨?_, ?_, ?_⟩
  · unfold NicknamesNodup updateUsername at *
    rw [map_field_map (fun r => by by_cases h : r.nickname = n <;> simp [h])]
    exact h1
  · unfold ChatsNodup updateUsername at *
    rw [map_field_map (fun r => by by_cases h : r.nickname = n <;> simp [h])]
    exact h2
  · intro r hr
    rw [updateUsername, List.mem_map] at hr
    obtain ⟨s, hs, rfl⟩ := hr
    by_cases h : s.nickname = n <;> simp [h] <;> exact h3 s hs

theorem registryInv_insert {t : Table} {n : String} {c : Int} {u : Option String}
    (hinv : RegistryInv t)
    (hchat : selectByChat t c = none) (hnick : selectByNickname t n = none) :
    RegistryInv (t ++ [⟨n, c, u, "user"⟩]) := by
  obtain ⟨h1, h2, h3⟩ := hinv
  refine ⟨?_, ?_, ?_⟩
  · unfold NicknamesNodup at *
    rw [List.map_append, List.nodup_append]
    refine ⟨h1, by simp, ?_⟩
    intro a ha hb
    simp at hb
    subst hb
    rw [List.mem_map] at ha
    obtain ⟨r, hr, hrn⟩ := ha
    exact (selectByNickname_eq_none.mp hnick) r hr hrn
  · unfold ChatsNodup at *
    rw [List.map_append, List.nodup_append]
    refine ⟨h2, by simp, ?_⟩
    intro a ha hb
    simp at hb
    subst hb
    rw [List.mem_map] at ha
    obtain ⟨r, hr, hrc⟩ := ha
    exact (selectByChat_eq_none.mp hchat) r hr hrc
  · intro r hr
    rw [List.mem_append] at hr
    rcases hr with hr | hr
    · exact h3 r hr
    · simp at hr
      subst hr
      exact Or.inl rfl

theorem registryInv_save {n : String} {c : Int} {u : Option String} {t t2 : Table}
    (hinv : RegistryInv t) (h : save_recipient n c u t = .ok t2) :
    RegistryInv t2 := by
  rcases save_ok_cases h with ⟨rc, -, -, rfl⟩ | ⟨hchat, hnick, rfl⟩
  · exact registryInv_updateUsername hinv n u
  · exact registryInv_insert hinv hchat hnick

theorem registryInv_set_role {n rl : String} {t t2 : Table} {cnt : Nat}
    (hinv : RegistryInv t) (h : set_role n rl t = .ok (cnt, t2)) :
    RegistryInv t2 := by
  obtain ⟨h1, h2, h3⟩ := hinv
  by_cases hv : rl = "user" ∨ rl = "admin"
  · simp [set_role, hv, updateRole] at h
    obtain ⟨-, ht2⟩ := h
    subst ht2
    refine ⟨?_, ?_, ?_⟩
    · unfold NicknamesNodup at *
      rw [map_field_map (fun r => by by_cases h : r.nickname = n <;> simp [h])]
      exact h1
    · unfold ChatsNodup at *
      rw [map_field_map (fun r => by by_cases h : r.nickname = n <;> simp [h])]
      exact h2
    · intro r hr
      rw [List.mem_map] at hr
      obtain ⟨s, hs, rfl⟩ := hr
      by_cases h : s.nickname = n <;> simp [h]
      · exact hv
      · exact h3 s hs
  · simp [set_role, hv] at h

theorem registryInv_filter {t : Table} (hinv : RegistryInv t)
    (p : Recipient → Bool) : RegistryInv (t.filter p) := by
  obtain ⟨h1, h2, h3⟩ := hinv
  exact ⟨List.Nodup.sublist (List.Sublist.map _ (List.filter_sublist t)) h1,
    List.Nodup.sublist (List.Sublist.map _ (List.filter_sublist t)) h2,
    fun r hr => h3 r (List.mem_filter.mp hr).1⟩

theorem registryInv_applyOp {t : Table} (hinv : RegistryInv t) (op : RegOp) :
    RegistryInv (applyOp t op) := by
  cases op with
  | register n c u =>
    cases hs : save_recipient n c u t with
    | error e => simpa [applyOp, hs] using hinv
    | ok t2 =>
      have := registryInv_save hinv hs
      simpa [applyOp, hs] using this
  | delByNickname n =>
    have := registryInv_filter hinv (fun r => r.nickname != n)
    simpa [applyOp, delete_by_nickname] using this
  | delByChat c =>
    have := registryInv_filter hinv (fun r => r.chat_id != c)
    simpa [applyOp, unsubscribe_chat] using this
  | setRole n rl =>
    cases hs : set_role n rl t with
    | error e => simpa [applyOp, hs] using hinv
    | ok p =>
      obtain ⟨cnt, t2⟩ := p
      have := registryInv_set_role hinv hs
      simpa [applyOp, hs] using this

theorem registryInv_foldl (ops : List RegOp) :
    ∀ t, RegistryInv t → RegistryInv (ops.foldl applyOp t) := by
  induction ops with
  | nil => intro t h; simpa using h
  | cons op ops ih => intro t h; exact ih _ (registryInv_applyOp h op)

/-- C1: for every sequence of registry operations (register, delete by
nickname, delete by chat, set role) starting from the empty table, the
table reached satisfies the three invariants: every nickname appears in at
most one row, every chat_id appears in at most one row, and every row's
role is user or admin. The state after each operation of a sequence is
runOps of a prefix, so the invariants hold after each operation completes. -/
theorem registry_invariants_hold (ops : List RegOp) : RegistryInv (runOps ops) :=
  registryInv_foldl ops [] registryInv_nil

/-! Further lemmas about the SELECT embeddings, used for the
register scenarios. -/

theorem selectByNickname_eq_of_nodup {t : Table} (h1 : NicknamesNodup t)
    {r : Recipient} {n : String} (hr : r ∈ t) (hn : r.nickname = n) :
    selectByNickname t n = some r := by
  cases hs : selectByNickname t n with
  | none => exact absurd hn (selectByNickname_eq_none.mp hs r hr)
  | some s =>
    have hsmem := selectByNickname_mem hs
    have hsn := selectByNickname_nickname hs
    have : s = r := List.inj_on_of_nodup_map h1 hsmem hr (by rw [hsn, hn])
    rw [this]

theorem selectByChat_eq_of_nodup {t : Table} (h2 : ChatsNodup t)
    {r : Recipient} {c : Int} (hr : r ∈ t) (hc : r.chat_id = c) :
    selectByChat t c = some r := by
  cases hs : selectByChat t c with
  | none => exact absurd hc (selectByChat_eq_none.mp hs r hr)
  | some s =>
    have hsmem := selectByChat_mem hs
    have hsc := selectByChat_chat hs
    have : s = r := List.inj_on_of_nodup_map h2 hsmem hr (by rw [hsc, hc])
    rw [this]

theorem find?_map_of_pred_invariant {f : Recipient → Recipient}
    {p : Recipient → Bool} (hp : ∀ r, p (f r) = p r) (t : Table) :
    (t.map f).find? p = (t.find? p).map f := by
  have hc : p ∘ f = p := funext hp
  rw [List.find?_map, hc]

theorem save_nicknameTaken {n : String} {c : Int} {u : Option String}
    {t : Table} {r : Recipient}
    (hchat : selectByChat t c = none) (hnick : selectByNickname t n = some r)
    (hne : r.chat_id ≠ c) :
    save_recipient n c u t = .error (.nicknameTaken n) := by
  unfold save_recipient
  rw [hchat, hnick]
  simp [hne]

theorem save_chatAlreadyBound {n : String} {c : Int} {u : Option String}
    {t : Table} {rc : Recipient}
    (hchat : selectByChat t c = some rc) (hne : rc.nickname ≠ n) :
    save_recipient n c u t = .error (.chatAlreadyBound rc.nickname) := by
  unfold save_recipient
  rw [hchat]
  cases hnick : selectByNickname t n with
  | none => simp [hne]
  | some rn =>
    have hrn := selectByNickname_nickname hnick
    simp [hne, hrn]

theorem selectByNickname_updateUsername (t : Table) (n m : String)
    (u : Option String) :
    selectByNickname (updateUsername t n u) m =
      (selectByNickname t m).map fun r =>
        if r.nickname = n then { r with username := u } else r := by
  unfold selectByNickname updateUsername
  exact find?_map_of_pred_invariant
    (fun r => by by_cases h : r.nickname = n <;> simp [h]) t

theorem selectByChat_updateUsername (t : Table) (n : String) (c : Int)
    (u : Option String) :
    selectByChat (updateUsername t n u) c =
      (selectByChat t c).map fun r =>
        if r.nickname = n then { r with username := u } else r := by
  unfold selectByChat updateUsername
  exact find?_map_of_pred_invariant
    (fun r => by by_cases h : r.nickname = n <;> simp [h]) t

/-- C2: for all nicknames n and chat ids c1 and c2 with c1 different from
c2 and c2 not yet bound, after a successful register of n for c1 a
subsequent register of n for c2 fails with the nicknameTaken error, the
table still holds a row binding n to c1, and the failed operation leaves
the table unchanged (so it inserts no record and the existing binding,
username and role included, is untouched). -/
theorem register_nickname_taken (n : String) (c1 c2 : Int)
    (u1 u2 : Option String) (t t2 : Table)
    (hinv : RegistryInv t) (hc : c1 ≠ c2)
    (hfree : ∀ r ∈ t, r.chat_id ≠ c2)
    (hok : save_recipient n c1 u1 t = .ok t2) :
    save_recipient n c2 u2 t2 = .error (.nicknameTaken n) ∧
    (∃ r ∈ t2, r.nickname = n ∧ r.chat_id = c1) ∧
    applyOp t2 (.register n c2 u2) = t2 := by
  obtain ⟨h1, h2, h3⟩ := hinv
  have key : selectByChat t2 c2 = none ∧
      ∃ r, selectByNickname t2 n = some r ∧ r.chat_id = c1 := by
    rcases save_ok_cases hok with ⟨rc, hchat, hrc, rfl⟩ | ⟨hchat, hnick, rfl⟩
    · constructor
      · rw [selectByChat_eq_none]
        intro r hr
        rw [updateUsername, List.mem_map] at hr
        obtain ⟨s, hs, rfl⟩ := hr
        have hcs : (if s.nickname = n then { s with username := u1 } else s).chat_id
            = s.chat_id := by
          by_cases h : s.nickname = n <;> simp [h]
        rw [hcs]
        exact hfree s hs
      · have hmem := selectByChat_mem hchat
        have hcc := selectByChat_chat hchat
        have hsel : selectByNickname t n = some rc :=
          selectByNickname_eq_of_nodup h1 hmem hrc
        refine ⟨{ rc with username := u1 }, ?_, hcc⟩
        rw [selectByNickname_updateUsername, hsel]
        simp [hrc]
    · constructor
      · rw [selectByChat_eq_none]
        intro r hr
        rw [List.mem_append] at hr
        rcases hr with hr | hr
        · exact hfree r hr
        · simp at hr
          subst hr
          simpa using hc
      · refine ⟨⟨n, c1, u1, "user"⟩, ?_, rfl⟩
        unfold selectByNickname at hnick ⊢
        rw [List.find?_append, hnick]
        simp
  obtain ⟨hchat2, r, hnick2, hrc1⟩ := key
  have herr : save_recipient n c2 u2 t2 = .error (.nicknameTaken n) :=
    save_nicknameTaken hchat2 hnick2 (by rw [hrc1]; exact hc)
  exact ⟨herr,
    ⟨r, selectByNickname_mem hnick2, selectByNickname_nickname hnick2, hrc1⟩,
    by simp [applyOp, herr]⟩

/-- C2 witness: concrete instance at the one-row table reached by
registering alice for chat 100 from the empty table. -/
theorem register_nickname_taken_witness :
    save_recipient "alice" 200 (some "u2")
        [⟨"alice", 100, some "u1", "user"⟩] =
      .error (.nicknameTaken "alice") := by
  have h := register_nickname_taken "alice" 100 200 (some "u1") (some "u2")
    [] [⟨"alice", 100, some "u1", "user"⟩]
    registryInv_nil (by decide) (by simp) (by rfl)
  exact h.1

/-- C3: for all chat ids c and distinct nicknames n1 and n2, after a
successful register of n1 for c a subsequent register of n2 for c fails
with the chatAlreadyBound error carrying the existing nickname n1, the
table still holds the row binding n1 to c, and the failed operation leaves
the table unchanged. No hypothesis restricts n2, so the conclusion also
holds when n2 is simultaneously taken by a different chat: the
chat-already-bound check wins over the nickname-taken check. -/
theorem register_chat_already_bound (n1 n2 : String) (c : Int)
    (u1 u2 : Option String) (t t2 : Table)
    (hinv : RegistryInv t) (hn : n1 ≠ n2)
    (hok : save_recipient n1 c u1 t = .ok t2) :
    save_recipient n2 c u2 t2 = .error (.chatAlreadyBound n1) ∧
    (∃ r ∈ t2, r.nickname = n1 ∧ r.chat_id = c) ∧
    applyOp t2 (.register n2 c u2) = t2 := by
  obtain ⟨h1, h2, h3⟩ := hinv
  have key : ∃ rc, selectByChat t2 c = some rc ∧ rc.nickname = n1 := by
    rcases save_ok_cases hok with ⟨rc, hchat, hrc, rfl⟩ | ⟨hchat, hnick, rfl⟩
    · refine ⟨{ rc with username := u1 }, ?_, by simpa using hrc⟩
      rw [selectByChat_updateUsername, hchat]
      simp [hrc]
    · refine ⟨⟨n1, c, u1, "user"⟩, ?_, rfl⟩
      unfold selectByChat at hchat ⊢
      rw [List.find?_append, hchat]
      simp
  obtain ⟨rc, hchat2, hrc⟩ := key
  have herr : save_recipient n2 c u2 t2 = .error (.chatAlreadyBound rc.nickname) :=
    save_chatAlreadyBound hchat2 (by rw [hrc]; exact hn)
  rw [hrc] at herr
  exact ⟨herr,
    ⟨rc, selectByChat_mem hchat2, hrc, selectByChat_chat hchat2⟩,
    by simp [applyOp, herr]⟩

/-- C3 witness: concrete instance, including the both-conditions case (the
nickname bob is simultaneously taken by chat 300, yet chatAlreadyBound is
the error raised). -/
theorem register_chat_already_bound_witness :
    save_recipient "bob" 100 (some "u2")
        [⟨"bob", 300, some "u3", "user"⟩, ⟨"alice", 100, some "u1", "user"⟩] =
      .error (.chatAlreadyBound "alice") := by
  have h := register_chat_already_bound "alice" "bob" 100 (some "u1") (some "u2")
    [⟨"bob", 300, some "u3", "user"⟩]
    [⟨"bob", 300, some "u3", "user"⟩, ⟨"alice", 100, some "u1", "user"⟩]
    (by refine ⟨?_, ?_, ?_⟩ <;> simp [NicknamesNodup, ChatsNodup, RolesValid])
    (by decide) (by rfl)
  exact h.1

/-- C4: when a row with exactly the pair (n, c) exists, registering (n, c)
again with a new username succeeds; the row's username becomes the new one
while its chat_id and role are kept, every other row is unchanged in both
directions, and the table's length is unchanged. Applying the theorem
twice gives the idempotence reading: registering the same pair twice
succeeds both times and the stored username is the latest one. -/
theorem register_same_pair (n : String) (c : Int) (u2 : Option String)
    (t : Table) (r0 : Recipient) (hinv : RegistryInv t)
    (hmem : r0 ∈ t) (hn : r0.nickname = n) (hc : r0.chat_id = c) :
    ∃ t2, save_recipient n c u2 t = .ok t2 ∧
      { r0 with username := u2 } ∈ t2 ∧
      (∀ r ∈ t, r.nickname ≠ n → r ∈ t2) ∧
      (∀ r ∈ t2, r.nickname ≠ n → r ∈ t) ∧
      (∀ r ∈ t2, r.nickname = n → r = { r0 with username := u2 }) ∧
      t2.length = t.length := by
  obtain ⟨h1, h2, h3⟩ := hinv
  have hselc : selectByChat t c = some r0 := selectByChat_eq_of_nodup h2 hmem hc
  have hseln : selectByNickname t n = some r0 :=
    selectByNickname_eq_of_nodup h1 hmem hn
  refine ⟨updateUsername t n u2, ?_, ?_, ?_, ?_, ?_, ?_⟩
  · unfold save_recipient
    rw [hselc, hseln]
    simp [hn]
  · rw [updateUsername, List.mem_map]
    exact ⟨r0, hmem, by simp [hn]⟩
  · intro r hr hrn
    rw [updateUsername, List.mem_map]
    exact ⟨r, hr, by simp [hrn]⟩
  · intro r hr hrn
    rw [updateUsername, List.mem_map] at hr
    obtain ⟨s, hs, rfl⟩ := hr
    by_cases h : s.nickname = n
    · simp [h] at hrn
    · simpa [h] using hs
  · intro r hr hrn
    rw [updateUsername, List.mem_map] at hr
    obtain ⟨s, hs, rfl⟩ := hr
    by_cases h : s.nickname = n
    · have hsr : s = r0 := List.inj_on_of_nodup_map h1 hs hmem (by rw [h, hn])
      subst hsr
      simp [h]
    · simp [h] at hrn
  · simp [updateUsername]

/-- C4 witness: re-registering the pair (alice, 100) with a new username
succeeds and stores the new username. -/
theorem register_same_pair_witness :
    ∃ t2, save_recipient "alice" 100 (some "u2")
        [⟨"alice", 100, some "u1", "user"⟩] = .ok t2 ∧
      (⟨"alice", 100, some "u2", "user"⟩ : Recipient) ∈ t2 := by
  obtain ⟨t2, hok, hmem2, -, -, -, -⟩ :=
    register_same_pair "alice" 100 (some "u2")
      [⟨"alice", 100, some "u1", "user"⟩] ⟨"alice", 100, some "u1", "user"⟩
      (by refine ⟨?_, ?_, ?_⟩ <;> simp [NicknamesNodup, ChatsNodup, RolesValid])
      (by simp) rfl rfl
  exact ⟨t2, hok, hmem2⟩

/-- Under the nickname uniqueness invariant the number of rows carrying a
nickname is one when some row does and zero otherwise. -/
theorem count_nickname_eq {t : Table} (h1 : NicknamesNodup t) (n : String) :
    (t.filter fun r => r.nickname == n).length =
      if ∃ r ∈ t, r.nickname = n then 1 else 0 := by
  induction t with
  | nil => simp
  | cons a t ih =>
    rw [NicknamesNodup, List.map_cons, List.nodup_cons] at h1
    obtain ⟨hna, hnd⟩ := h1
    by_cases h : a.nickname = n
    · have hft : (t.filter fun r => r.nickname == n) = [] := by
        rw [List.filter_eq_nil_iff]
        intro r hr
        simp only [beq_iff_eq]
        intro hrn
        exact hna (List.mem_map.mpr ⟨r, hr, by rw [hrn, h]⟩)
      rw [List.filter_cons_of_pos (by simpa using h), hft,
        if_pos ⟨a, List.mem_cons_self a t, h⟩]
      rfl
    · rw [List.filter_cons_of_neg (by simpa using h), ih hnd]
      by_cases hex : ∃ r ∈ t, r.nickname = n
      · obtain ⟨r, hr, hrn⟩ := hex
        rw [if_pos ⟨r, hr, hrn⟩, if_pos ⟨r, List.mem_cons_of_mem a hr, hrn⟩]
      · rw [if_neg hex, if_neg ?_]
        rintro ⟨r, hr, hrn⟩
        rcases List.mem_cons.mp hr with rfl | hr2
        · exact h hrn
        · exact hex ⟨r, hr2, hrn⟩

/-- C7: for a role outside user and admin, set_role fails with the
invalidRole error and the table is untouched (the UPDATE is never
reached); for a valid role it succeeds and returns the count of updated
rows, one when a row with the nickname exists and zero otherwise. -/
theorem set_role_invalid_and_count (n rl : String) (t : Table)
    (h1 : NicknamesNodup t) :
    ((rl ≠ "user" ∧ rl ≠ "admin") →
      set_role n rl t = .error .invalidRole ∧ applyOp t (.setRole n rl) = t) ∧
    ((rl = "user" ∨ rl = "admin") →
      ∃ t2, set_role n rl t =
        .ok (if ∃ r ∈ t, r.nickname = n then 1 else 0, t2)) := by
  constructor
  · rintro ⟨hu, ha⟩
    have hcond : ¬ (rl = "user" ∨ rl = "admin") := by tauto
    have herr : set_role n rl t = .error .invalidRole := by
      simp [set_role, hcond]
    exact ⟨herr, by simp [applyOp, herr]⟩
  · intro hv
    refine ⟨(updateRole t n rl).2, ?_⟩
    simp [set_role, hv, updateRole, count_nickname_eq h1]

/-- C7 witness: set_role with role root fails on a one-row table, while
set_role with role admin updates exactly one row there. -/
theorem set_role_invalid_and_count_witness :
    set_role "alice" "root" [⟨"alice", 100, some "u1", "user"⟩] =
      .error .invalidRole ∧
    ∃ t2, set_role "alice" "admin" [⟨"alice", 100, some "u1", "user"⟩] =
      .ok (1, t2) := by
  constructor
  · exact ((set_role_invalid_and_count "alice" "root"
      [⟨"alice", 100, some "u1", "user"⟩] (by simp [NicknamesNodup])).1
      (by decide)).1
  · obtain ⟨t2, ht⟩ := (set_role_invalid_and_count "alice" "admin"
      [⟨"alice", 100, some "u1", "user"⟩] (by simp [NicknamesNodup])).2
      (Or.inr rfl)
    have hex : ∃ r ∈ [(⟨"alice", 100, some "u1", "user"⟩ : Recipient)],
        r.nickname = "alice" := ⟨⟨"alice", 100, some "u1", "user"⟩, by simp, rfl⟩
    rw [if_pos hex] at ht
    exact ⟨t2, ht⟩

/-- C5 counterexample: with chosen role admin and a target nickname absent
from the table, the commit step raises nicknameNotFound but the
conversation remains in the awaiting-nickname state: the handler raises
instead of returning the END sentinel, the driver updates state only from
return values, so the session is not ended, contradicting the claim's
"fails with NicknameNotFound and ends the session". Only the collected
role is cleared. -/
theorem setrole_notfound_keeps_session :
    setrole_receive_nickname "bob" (some "admin")
        [⟨"alice", 100, some "u1", "user"⟩] =
      ⟨.error (.nicknameNotFound "bob"), some SETROLE_WAIT_NICKNAME, none,
        [⟨"alice", 100, some "u1", "user"⟩]⟩ := by
  rfl

/-- C5 amended: in the final commit step of the role-assignment
conversation, given a chosen role and a target nickname (stripped,
non-empty): when no row carries the nickname the step fails with
nicknameNotFound, clears the collected role and touches no row, but the
conversation stays in the awaiting-nickname state (the raise does not end
the session); when the row's role already equals the chosen one the step
reports the distinct no-op reply, touches no row and ends the session;
otherwise it runs set_role, whose updated count is non-zero, reports the
old to new transition and ends the session. -/
theorem setrole_commit_outcomes (n rl : String) (t : Table)
    (hrl : rl = "admin" ∨ rl = "user") (htrim : pyStrip n = n) (hne : n ≠ "") :
    (get_recipient_by_nickname n t = none →
      setrole_receive_nickname n (some rl) t =
        ⟨.error (.nicknameNotFound n), some SETROLE_WAIT_NICKNAME, none, t⟩) ∧
    (∀ rcpt, get_recipient_by_nickname n t = some rcpt → rcpt.role = rl →
      setrole_receive_nickname n (some rl) t =
        ⟨.ok (.noopSame n rl), none, none, t⟩) ∧
    (∀ rcpt, get_recipient_by_nickname n t = some rcpt → rcpt.role ≠ rl →
      ∃ cnt t2, set_role n rl t = .ok (cnt, t2) ∧ cnt ≠ 0 ∧
        setrole_receive_nickname n (some rl) t =
          ⟨.ok (.changed n rcpt.role rl), none, none, t2⟩) := by
  have hnv : ¬¬ (rl = "admin" ∨ rl = "user") := not_not_intro hrl
  refine ⟨?_, ?_, ?_⟩
  · intro habs
    simp [setrole_receive_nickname, htrim, hne, hnv, habs]
  · intro rcpt hfound hsame
    simp [setrole_receive_nickname, htrim, hne, hnv, hfound, hsame]
  · intro rcpt hfound hdiff
    have hv : rl = "user" ∨ rl = "admin" := hrl.symm
    have hset : set_role n rl t = .ok (updateRole t n rl) := by
      simp [set_role, hv]
    have hmemf : rcpt ∈ t.filter fun r => r.nickname == n := by
      rw [List.mem_filter]
      refine ⟨selectByNickname_mem hfound, ?_⟩
      simp [selectByNickname_nickname hfound]
    have hcnt : (updateRole t n rl).1 ≠ 0 := by
      unfold updateRole
      simp only []
      intro hzero
      rw [List.length_eq_zero] at hzero
      rw [hzero] at hmemf
      exact List.not_mem_nil rcpt hmemf
    refine ⟨(updateRole t n rl).1, (updateRole t n rl).2, hset, hcnt, ?_⟩
    simp [setrole_receive_nickname, htrim, hne, hnv, hfound, hdiff, hset, hcnt]

/-- C5 witness: the nicknameNotFound case (session kept, role cleared) and
the no-op case (session ended) at a concrete one-row table. -/
theorem setrole_commit_outcomes_witness :
    setrole_receive_nickname "bob" (some "admin")
        [⟨"alice", 100, some "u1", "user"⟩] =
      ⟨.error (.nicknameNotFound "bob"), some SETROLE_WAIT_NICKNAME, none,
        [⟨"alice", 100, some "u1", "user"⟩]⟩ ∧
    setrole_receive_nickname "alice" (some "user")
        [⟨"alice", 100, some "u1", "user"⟩] =
      ⟨.ok (.noopSame "alice" "user"), none, none,
        [⟨"alice", 100, some "u1", "user"⟩]⟩ := by
  constructor
  · exact (setrole_commit_outcomes "bob" "admin"
      [⟨"alice", 100, some "u1", "user"⟩]
      (Or.inl rfl) rfl (by decide)).1 rfl
  · exact (setrole_commit_outcomes "alice" "user"
      [⟨"alice", 100, some "u1", "user"⟩]
      (Or.inr rfl) rfl (by decide)).2.1 ⟨"alice", 100, some "u1", "user"⟩ rfl rfl

/-- C6 counterexample: with the correct secret and alice bound to chat
100, a delivery attempt that raises a transport exception is a failing
outbound delivery call, yet the response is the framework's 500, not 502:
the except clause only catches the RuntimeError raised for a non-ok
response, so the transport exception escapes the handler. This contradicts
the claim's "otherwise 502 when the outbound delivery call fails". -/
theorem notify_transport_exception_gives_500 :
    notify "s" (fun _ _ => .transportException)
        [⟨"alice", 100, some "u1", "user"⟩] ⟨"s", "alice", "hi"⟩ =
      ⟨.error500, ["alice"], [(100, "hi")]⟩ := by
  rfl

/-- C6 amended: the notify endpoint answers 403 with no lookup and no
delivery when the secret mismatches; 404 with no delivery when the secret
matches and no row carries the nickname; otherwise exactly one outbound
delivery is attempted, addressed to the chat_id bound to the nickname,
and the response is 502 when the delivery returns a non-2xx response (the
caught RuntimeError), 500 when the delivery call raises a transport
exception (uncaught, escapes the handler), and 200 with status ok when it
succeeds. -/
theorem notify_responses (s : String) (d : Int → String → DeliveryOutcome)
    (t : Table) (p : NotifyRequest) :
    (p.secret ≠ s → notify s d t p = ⟨.forbidden403, [], []⟩) ∧
    (p.secret = s → (∀ r ∈ t, r.nickname ≠ p.nickname) →
      notify s d t p = ⟨.notFound404, [p.nickname], []⟩) ∧
    (∀ r0, p.secret = s → selectByNickname t p.nickname = some r0 →
      d r0.chat_id p.text = .notOk →
      notify s d t p = ⟨.badGateway502, [p.nickname], [(r0.chat_id, p.text)]⟩) ∧
    (∀ r0, p.secret = s → selectByNickname t p.nickname = some r0 →
      d r0.chat_id p.text = .transportException →
      notify s d t p = ⟨.error500, [p.nickname], [(r0.chat_id, p.text)]⟩) ∧
    (∀ r0, p.secret = s → selectByNickname t p.nickname = some r0 →
      d r0.chat_id p.text = .delivered →
      notify s d t p = ⟨.ok200, [p.nickname], [(r0.chat_id, p.text)]⟩) := by
  refine ⟨?_, ?_, ?_, ?_, ?_⟩
  · intro h
    simp [notify, h]
  · intro hs habs
    have hnone : get_chat_id t p.nickname = none := by
      unfold get_chat_id
      rw [List.find?_eq_none.mpr (by simpa using habs)]
      rfl
    simp [notify, hs, hnone]
  · intro r0 hs hsel hd
    have hsome : get_chat_id t p.nickname = some r0.chat_id := by
      unfold get_chat_id
      rw [show t.find? (fun r => r.nickname == p.nickname) = some r0 from hsel]
      rfl
    simp [notify, hs, hsome, hd]
  · intro r0 hs hsel hd
    have hsome : get_chat_id t p.nickname = some r0.chat_id := by
      unfold get_chat_id
      rw [show t.find? (fun r => r.nickname == p.nickname) = some r0 from hsel]
      rfl
    simp [notify, hs, hsome, hd]
  · intro r0 hs hsel hd
    have hsome : get_chat_id t p.nickname = some r0.chat_id := by
      unfold get_chat_id
      rw [show t.find? (fun r => r.nickname == p.nickname) = some r0 from hsel]
      rfl
    simp [notify, hs, hsome, hd]

/-- C6 witness: wrong secret gives 403 with no delivery; right secret with
alice registered to chat 100 and a succeeding transport gives 200 with one
delivery to chat 100; a non-ok transport response there gives 502 after
the same single attempt. -/
theorem notify_responses_witness :
    notify "s" (fun _ _ => .delivered) [⟨"alice", 100, some "u1", "user"⟩]
        ⟨"bad", "alice", "hi"⟩ = ⟨.forbidden403, [], []⟩ ∧
    notify "s" (fun _ _ => .delivered) [⟨"alice", 100, some "u1", "user"⟩]
        ⟨"s", "alice", "hi"⟩ = ⟨.ok200, ["alice"], [(100, "hi")]⟩ ∧
    notify "s" (fun _ _ => .notOk) [⟨"alice", 100, some "u1", "user"⟩]
        ⟨"s", "alice", "hi"⟩ = ⟨.badGateway502, ["alice"], [(100, "hi")]⟩ := by
  refine ⟨?_, ?_, ?_⟩
  · exact (notify_responses "s" (fun _ _ => .delivered)
      [⟨"alice", 100, some "u1", "user"⟩] ⟨"bad", "alice", "hi"⟩).1 (by decide)
  · exact (notify_responses "s" (fun _ _ => .delivered)
      [⟨"alice", 100, some "u1", "user"⟩] ⟨"s", "alice", "hi"⟩).2.2.2.2
      ⟨"alice", 100, some "u1", "user"⟩ rfl rfl rfl
  · exact (notify_responses "s" (fun _ _ => .notOk)
      [⟨"alice", 100, some "u1", "user"⟩] ⟨"s", "alice", "hi"⟩).2.2.1
      ⟨"alice", 100, some "u1", "user"⟩ rfl rfl rfl

/-- C10: on a secret mismatch the notify handler performs no registry
lookup and no delivery attempt and answers 403; consequently the whole
observable outcome is identical for any two registry states (and any two
delivery oracles), so the response reveals nothing about which nicknames
exist. -/
theorem notify_wrong_secret_no_leak (s : String) (t1 t2 : Table)
    (d1 d2 : Int → String → DeliveryOutcome) (p : NotifyRequest)
    (h : p.secret ≠ s) :
    (notify s d1 t1 p).lookups = [] ∧
    (notify s d1 t1 p).deliveries = [] ∧
    (notify s d1 t1 p).response = .forbidden403 ∧
    notify s d1 t1 p = notify s d2 t2 p := by
  simp [notify, h]

/-- C10 witness: a wrong-secret request gets the same outcome on a
populated registry with a working transport as on the empty registry with
a failing transport. -/
theorem notify_wrong_secret_no_leak_witness :
    notify "s" (fun _ _ => .delivered) [⟨"alice", 100, some "u1", "user"⟩]
        ⟨"bad", "alice", "hi"⟩ =
      notify "s" (fun _ _ => .transportException) [] ⟨"bad", "alice", "hi"⟩ :=
  (notify_wrong_secret_no_leak "s" [⟨"alice", 100, some "u1", "user"⟩] []
    (fun _ _ => .delivered) (fun _ _ => .transportException)
    ⟨"bad", "alice", "hi"⟩ (by decide)).2.2.2

/-- C8 counterexample: the callback token role:moderator is not one of the
two accepted tokens, yet the role-choice step does not fail the session
with an error: the registered pattern filters the callback, the handler is
never invoked, and the conversation stays in the role-choice state with no
error raised and no role stored — the session is not abandoned. -/
theorem setrole_other_token_ignored :
    setroleChooseRoleStep "role:moderator" none =
      (SETROLE_CHOOSE_ROLE, none, none) := by
  decide

/-- C8 amended: exactly the tokens role:admin and role:user are accepted
by the role-choice step and advance the session to awaiting the target
nickname with the chosen role stored. No other token advances or fails
the session: the registration pattern lets through only those two tokens
and their single-trailing-newline variants; a newline variant reaches the
handler, which raises the invalid-role error, and the raising handler
leaves the session in the role-choice state with its stored role
unchanged; every other token never reaches the handler and leaves the
session in the role-choice state with no error raised. -/
theorem setrole_choose_role_tokens (data : String) (tr : Option String) :
    (data = "role:admin" →
      setroleChooseRoleStep data tr = (SETROLE_WAIT_NICKNAME, some "admin", none)) ∧
    (data = "role:user" →
      setroleChooseRoleStep data tr = (SETROLE_WAIT_NICKNAME, some "user", none)) ∧
    (data = "role:admin\n" ∨ data = "role:user\n" →
      setroleChooseRoleStep data tr =
        (SETROLE_CHOOSE_ROLE, tr, some .invalidRoleChoice)) ∧
    (data ≠ "role:admin" → data ≠ "role:user" →
      data ≠ "role:admin\n" → data ≠ "role:user\n" →
      setroleChooseRoleStep data tr = (SETROLE_CHOOSE_ROLE, tr, none)) := by
  refine ⟨?_, ?_, ?_, ?_⟩
  · rintro rfl
    rfl
  · rintro rfl
    rfl
  · rintro (rfl | rfl) <;> rfl
  · intro h1 h2 h3 h4
    have hpat : setrolePatternMatches data = false := by
      simp [setrolePatternMatches, h1, h2, h3, h4]
    simp [setroleChooseRoleStep, hpat]

/-- C8 witness: both accepted tokens at concrete inputs, a
newline-suffixed token that passes the pattern and makes the handler
raise, and a rejected token left in the role-choice state. -/
theorem setrole_choose_role_tokens_witness :
    setroleChooseRoleStep "role:admin" none =
      (SETROLE_WAIT_NICKNAME, some "admin", none) ∧
    setroleChooseRoleStep "role:user" (some "admin") =
      (SETROLE_WAIT_NICKNAME, some "user", none) ∧
    setroleChooseRoleStep "role:admin\n" (some "user") =
      (SETROLE_CHOOSE_ROLE, some "user", some .invalidRoleChoice) ∧
    setroleChooseRoleStep "cancel" (some "admin") =
      (SETROLE_CHOOSE_ROLE, some "admin", none) :=
  ⟨(setrole_choose_role_tokens "role:admin" none).1 rfl,
   (setrole_choose_role_tokens "role:user" (some "admin")).2.1 rfl,
   (setrole_choose_role_tokens "role:admin\n" (some "user")).2.2.1 (Or.inl rfl),
   (setrole_choose_role_tokens "cancel" (some "admin")).2.2.2
     (by decide) (by decide) (by decide) (by decide)⟩

/-- C9 counterexample: the registry store's register operation performs no
emptiness check itself: save_recipient with the empty nickname on the empty
table succeeds and inserts a row, instead of failing with an error. -/
theorem save_recipient_empty_nickname_inserts :
    save_recipient "" 1 none [] = .ok [⟨"", 1, none, "user"⟩] := by
  rfl

/-- C9 amended: the non-empty constraint is enforced one layer up, in the
subscribe handler: for every chat id, username, table and message text that
strips to the empty string, subscribe_receive fails with the emptyNickname
error before the store is called, so no record is inserted; save_recipient
itself does not validate non-emptiness. -/
theorem subscribe_empty_nickname_rejected (text : String) (c : Int)
    (u : Option String) (t : Table) (h : pyStrip text = "") :
    subscribe_receive text c u t = .error .emptyNickname := by
  simp [subscribe_receive, h]

/-- C9 witness: a whitespace-only message is rejected by the subscribe
handler with the emptyNickname error. -/
theorem subscribe_empty_nickname_rejected_witness :
    subscribe_receive "  " 1 none [] = .error .emptyNickname :=
  subscribe_empty_nickname_rejected "  " 1 none [] (by decide)

end ReportBot
